import Mathlib

/-!
Verification development for the PostBlog hearing service
(src/postblog/services/hearing_service.py): the tolerant JSON extractor
`_extract_json`, and the `HearingService` operations `send_message` and
`generate_summary`, embedded shallowly together with the parts of the
Python standard library they rely on (`json.loads`, `dict.update`,
`str.strip`, and the two `re.search` patterns used by the extractor).
-/

/-- A JSON value as produced by Python's `json.loads`.  Numbers keep their
source lexeme (the claims never compare numeric magnitudes, and this also
covers the `NaN` / `Infinity` constants CPython accepts); objects are
association lists in insertion order with unique keys, as in a Python
`dict`. -/
inductive JValue where
  | null : JValue
  | bool : Bool → JValue
  | num : String → JValue
  | str : String → JValue
  | arr : List JValue → JValue
  | obj : List (String × JValue) → JValue

/-- Whether a Python value is a dict (a JSON mapping). -/
def JValue.isObj : JValue → Bool
  | JValue.obj _ => true
  | _ => false

/-- JSON grammar whitespace accepted by `json.loads` between tokens:
space, tab, newline, carriage return. -/
def isJsonWs (c : Char) : Bool :=
  c = ' ' || c = '\t' || c = '\n' || c = '\r'

/-- Whitespace stripped by Python's `str.strip()` and matched by the
regex class `\s` (the ASCII subset; the exotic Unicode spaces play no
role in any claim). -/
def isPySpace (c : Char) : Bool :=
  c = ' ' || c = '\t' || c = '\n' || c = '\r' || c = '\x0b' || c = '\x0c'

/-- Python `str.strip()` on a character list. -/
def pyStrip (cs : List Char) : List Char :=
  ((cs.dropWhile isPySpace).reverse.dropWhile isPySpace).reverse

/-- Does `p` occur as a prefix of `cs`? -/
def startsWithList : List Char → List Char → Bool
  | [], _ => true
  | _ :: _, [] => false
  | p :: ps, c :: cs => if p = c then startsWithList ps cs else false

/-- Value of one hexadecimal digit, as used by `\uXXXX` string escapes. -/
def hexVal? (c : Char) : Option Nat :=
  if '0' ≤ c ∧ c ≤ '9' then some (c.toNat - '0'.toNat)
  else if 'a' ≤ c ∧ c ≤ 'f' then some (c.toNat - 'a'.toNat + 10)
  else if 'A' ≤ c ∧ c ≤ 'F' then some (c.toNat - 'A'.toNat + 10)
  else none

/-- Character for a `\uXXXX` escape.  CPython combines valid surrogate
pairs and tolerates lone surrogates; a Lean `Char` cannot hold a
surrogate, so those code points are mapped to U+FFFD (no claim touches
them). -/
def uChar (n : Nat) : Char :=
  if _h : n.isValidChar then Char.ofNat n else '�'

/-- Body of a JSON string after the opening quote: returns the decoded
characters and the input after the closing quote.  Mirrors `json.loads`
in strict mode: raw control characters below U+0020 are rejected, the
escapes are `\" \\ \/ \b \f \n \r \t \uXXXX`. -/
def parseStrChars : List Char → Option (List Char × List Char)
  | [] => none
  | '"' :: rest => some ([], rest)
  | '\\' :: esc =>
    match esc with
    | '"' :: rest => (parseStrChars rest).map (fun p => ('"' :: p.1, p.2))
    | '\\' :: rest => (parseStrChars rest).map (fun p => ('\\' :: p.1, p.2))
    | '/' :: rest => (parseStrChars rest).map (fun p => ('/' :: p.1, p.2))
    | 'b' :: rest => (parseStrChars rest).map (fun p => ('\x08' :: p.1, p.2))
    | 'f' :: rest => (parseStrChars rest).map (fun p => ('\x0c' :: p.1, p.2))
    | 'n' :: rest => (parseStrChars rest).map (fun p => ('\n' :: p.1, p.2))
    | 'r' :: rest => (parseStrChars rest).map (fun p => ('\r' :: p.1, p.2))
    | 't' :: rest => (parseStrChars rest).map (fun p => ('\t' :: p.1, p.2))
    | 'u' :: h1 :: h2 :: h3 :: h4 :: rest =>
      match hexVal? h1, hexVal? h2, hexVal? h3, hexVal? h4 with
      | some a, some b, some c, some d =>
        (parseStrChars rest).map
          (fun p => (uChar (((a * 16 + b) * 16 + c) * 16 + d) :: p.1, p.2))
      | _, _, _, _ => none
    | _ => none
  | c :: rest =>
    if c.toNat < 0x20 then none
    else (parseStrChars rest).map (fun p => (c :: p.1, p.2))

/-- Lexeme of a JSON number starting at the head of the input, together
with the rest, following the maximal-munch regex used by `json.loads`:
`-?(0|[1-9][0-9]*)(\.[0-9]+)?([eE][-+]?[0-9]+)?`. -/
def parseNumberLex (cs : List Char) : Option (List Char × List Char) :=
  let signed : List Char × List Char :=
    match cs with
    | '-' :: r => (['-'], r)
    | _ => ([], cs)
  let intPart : Option (List Char × List Char) :=
    match signed.2 with
    | '0' :: r => some (signed.1 ++ ['0'], r)
    | c :: r =>
      if '1' ≤ c ∧ c ≤ '9' then
        some (signed.1 ++ (c :: r.takeWhile Char.isDigit), r.dropWhile Char.isDigit)
      else none
    | [] => none
  match intPart with
  | none => none
  | some (lex1, r1) =>
    let withFrac : List Char × List Char :=
      match r1 with
      | '.' :: r2 =>
        if (r2.takeWhile Char.isDigit).isEmpty then (lex1, r1)
        else (lex1 ++ ('.' :: r2.takeWhile Char.isDigit), r2.dropWhile Char.isDigit)
      | _ => (lex1, r1)
    let withExp : List Char × List Char :=
      match withFrac.2 with
      | e :: r3 =>
        if e = 'e' ∨ e = 'E' then
          let sign : List Char × List Char :=
            match r3 with
            | '+' :: r4 => (['+'], r4)
            | '-' :: r4 => (['-'], r4)
            | _ => ([], r3)
          if (sign.2.takeWhile Char.isDigit).isEmpty then withFrac
          else (withFrac.1 ++ (e :: sign.1 ++ sign.2.takeWhile Char.isDigit),
                sign.2.dropWhile Char.isDigit)
        else withFrac
      | [] => withFrac
    some withExp

/-- Insert into a Python dict modelled as an association list: an existing
key keeps its position and gets the new value, a new key is appended.
Used both when `json.loads` builds an object (duplicate keys: last value
wins) and by `dict.update`. -/
def dictInsert : List (String × JValue) → String → JValue → List (String × JValue)
  | [], k, v => [(k, v)]
  | p :: rest, k, v =>
    if p.1 = k then (k, v) :: rest else p :: dictInsert rest k v

mutual

/-- One JSON value (leading grammar whitespace allowed), returning the
rest of the input.  `fuel` only bounds recursion; `json_loads_list`
supplies more than enough. -/
def parseValue : Nat → List Char → Option (JValue × List Char)
  | 0, _ => none
  | Nat.succ f, cs0 =>
    let cs := cs0.dropWhile isJsonWs
    match cs with
    | '\x7b' :: rest =>
      match rest.dropWhile isJsonWs with
      | '\x7d' :: r1 => some (JValue.obj [], r1)
      | r1 => parseMembers f r1 []
    | '[' :: rest =>
      match rest.dropWhile isJsonWs with
      | ']' :: r1 => some (JValue.arr [], r1)
      | r1 => parseElems f r1 []
    | '"' :: rest =>
      match parseStrChars rest with
      | some (s, r1) => some (JValue.str (String.mk s), r1)
      | none => none
    | _ =>
      if startsWithList ['t', 'r', 'u', 'e'] cs then some (JValue.bool true, cs.drop 4)
      else if startsWithList ['f', 'a', 'l', 's', 'e'] cs then some (JValue.bool false, cs.drop 5)
      else if startsWithList ['n', 'u', 'l', 'l'] cs then some (JValue.null, cs.drop 4)
      else if startsWithList ['N', 'a', 'N'] cs then some (JValue.num "NaN", cs.drop 3)
      else if startsWithList ['I', 'n', 'f', 'i', 'n', 'i', 't', 'y'] cs then
        some (JValue.num "Infinity", cs.drop 8)
      else if startsWithList ['-', 'I', 'n', 'f', 'i', 'n', 'i', 't', 'y'] cs then
        some (JValue.num "-Infinity", cs.drop 9)
      else
        match parseNumberLex cs with
        | some (lex, r1) => some (JValue.num (String.mk lex), r1)
        | none => none

/-- Members of a JSON object after `{` (and not the empty object):
`"key" : value` pairs separated by commas, closed by `RBRACE`. -/
def parseMembers : Nat → List Char → List (String × JValue) → Option (JValue × List Char)
  | 0, _, _ => none
  | Nat.succ f, cs, acc =>
    match cs with
    | '"' :: rest =>
      match parseStrChars rest with
      | none => none
      | some (kcs, r1) =>
        match r1.dropWhile isJsonWs with
        | ':' :: r2 =>
          match parseValue f r2 with
          | none => none
          | some (v, r3) =>
            match r3.dropWhile isJsonWs with
            | ',' :: r4 =>
              parseMembers f (r4.dropWhile isJsonWs) (dictInsert acc (String.mk kcs) v)
            | '\x7d' :: r4 => some (JValue.obj (dictInsert acc (String.mk kcs) v), r4)
            | _ => none
        | _ => none
    | _ => none

/-- Elements of a JSON array after `[` (and not the empty array). -/
def parseElems : Nat → List Char → List JValue → Option (JValue × List Char)
  | 0, _, _ => none
  | Nat.succ f, cs, acc =>
    match parseValue f cs with
    | none => none
    | some (v, r1) =>
      match r1.dropWhile isJsonWs with
      | ',' :: r2 => parseElems f r2 (acc ++ [v])
      | ']' :: r2 => some (JValue.arr (acc ++ [v]), r2)
      | _ => none

end

/-- Python `json.loads` on a character list: one JSON value, with only
grammar whitespace around it, and nothing after it ("Extra data"
otherwise).  `none` models a raised `json.JSONDecodeError`. -/
def json_loads_list (cs : List Char) : Option JValue :=
  match parseValue (2 * cs.length + 4) cs with
  | some (v, rest) => if (rest.dropWhile isJsonWs).isEmpty then some v else none
  | none => none

/-- Python `json.loads` on a string. -/
def json_loads (s : String) : Option JValue :=
  json_loads_list s.toList

/-- Three backticks, the code-fence delimiter of the extractor's first
regex. -/
def fenceChars : List Char := ['\x60', '\x60', '\x60']

/-- The literal language tag accepted by the extractor's first regex,
`(?:json)?`. -/
def jsonTag : List Char := ['j', 's', 'o', 'n']

/-- Suffix of the input starting at the first occurrence of three
backticks, if any (the leftmost start of the regex). -/
def dropToFence : List Char → Option (List Char)
  | [] => none
  | c :: rest =>
    if startsWithList fenceChars (c :: rest) = true then some (c :: rest)
    else dropToFence rest

/-- The lazy scan of `(.*?)\n?` + closing fence at the current position:
the shortest content such that the rest is the closing fence, optionally
preceded by one newline (the newline branch of `\n?` is preferred, so a
newline directly before the fence is left out of the content). -/
def scanContent : List Char → Option (List Char)
  | [] => none
  | c :: rest =>
    if c = '\n' ∧ startsWithList fenceChars rest = true then some []
    else if startsWithList fenceChars (c :: rest) = true then some []
    else
      match scanContent rest with
      | some content => some (c :: content)
      | none => none

/-- Captured group of the extractor's first regex,
three backticks + `(?:json)?\s*\n?(.*?)\n?` + three backticks with
`re.DOTALL`, applied by `re.search`.  The translation takes the first
fence, then the preferred prefix choices (`json` if present, then the
maximal whitespace run; the first `\n?` then necessarily matches empty),
then the lazy scan for the closing fence.  Backtracking cannot change
this: `json` and whitespace contain no backtick, so giving characters
back never creates a closing fence that the preferred choices missed,
and if no closing fence follows the first opening fence then no fence
pair exists anywhere to the right, so later starts fail too and the
whole search fails -- exactly this function returning `none`. -/
def codeBlockContent (cs : List Char) : Option (List Char) :=
  match dropToFence cs with
  | none => none
  | some s =>
    let s1 := s.drop 3
    let s2 := if startsWithList jsonTag s1 = true then s1.drop 4 else s1
    scanContent (s2.dropWhile isPySpace)

/-- Suffix of the input starting at its first opening brace, if any. -/
def firstBraceSplit : List Char → Option (List Char)
  | [] => none
  | c :: rest =>
    if c = '\x7b' then some (c :: rest) else firstBraceSplit rest

/-- Match of the extractor's third regex, an opening brace + `.*` + a
closing brace with `re.DOTALL`, applied by `re.search`: the span from
the first opening brace to the last closing brace of the text (leftmost
start, greedy extension), provided a closing brace occurs after the
first opening one. -/
def braceSpan (cs : List Char) : Option (List Char) :=
  match firstBraceSplit cs with
  | none => none
  | some suffix =>
    let trimmed := (suffix.reverse.dropWhile (fun c => ¬(c = '\x7d'))).reverse
    if trimmed.isEmpty then none else some trimmed

/-- Stages 2 and 3 of `_extract_json`, the code run when stage 1 raised
or found no block: `json.loads(text.strip())`, then `json.loads` on the
first-brace-to-last-brace span.  `none` models the final
`raise ValueError` (the spec's `ExtractionError`). -/
def extractStage23 (cs : List Char) : Option JValue :=
  match json_loads_list (pyStrip cs) with
  | some v => some v
  | none =>
    match braceSpan cs with
    | some span => json_loads_list span
    | none => none

/-- `_extract_json` from hearing_service.py: try the first fenced code
block's content (stripped), then the whole stripped text, then the
greedy brace span; `none` models `ValueError` (`ExtractionError`). -/
def extract_json (text : String) : Option JValue :=
  match codeBlockContent text.toList with
  | some content =>
    match json_loads_list (pyStrip content) with
    | some v => some v
    | none => extractStage23 text.toList
  | none => extractStage23 text.toList

/-- Message role.  Modelled from the spec: `HearingMessage` lives in
postblog/models/hearing.py, which is not under src/; §3 gives
`role: enum{user, assistant, system}`. -/
inductive Role where
  | user : Role
  | assistant : Role
  | system : Role

/-- The role string placed in the payload dicts sent to the LLM client. -/
def roleStr : Role → String
  | Role.user => "user"
  | Role.assistant => "assistant"
  | Role.system => "system"

/-- Modelled from the spec: one conversation turn (`HearingMessage` in
postblog/models/hearing.py, not under src/): role plus text content,
immutable once created. -/
structure HearingMessage where
  role : Role
  content : String

/-- Modelled from the spec: the conversation state (`HearingResult` in
postblog/models/hearing.py, not under src/): template id, append-only
turn list, answers mapping, summary, three SEO fields and the completion
flag, the text fields empty and `completed` false at creation.  The text
fields are held as `JValue` because the Python assignments in
`generate_summary` store whatever value `data.get` returned, which need
not be a string. -/
structure HearingResult where
  blog_type_id : String
  messages : List HearingMessage := []
  answers : List (String × JValue) := []
  summary : JValue := JValue.str ""
  seo_keywords : JValue := JValue.str ""
  seo_target_audience : JValue := JValue.str ""
  seo_search_intent : JValue := JValue.str ""
  completed : Bool := false

/-- Modelled from the spec: one checklist item of a hearing template
(postblog/models/blog_type.py, not under src/): question text and a
required/optional flag. -/
structure HearingItem where
  question : String
  required : Bool

/-- Modelled from the spec: a hearing template (`BlogType`, not under
src/): identifier, policy text, ordered checklist.  Read-only input. -/
structure BlogType where
  id : String
  hearing_policy : String
  hearing_items : List HearingItem

/-- A `{role, content}` pair as handed to the LLM client's `chat`. -/
structure ChatMessage where
  role : String
  content : String

/-- Modelled from the spec: the fixed interview system-prompt template
(postblog/templates/prompts.py, not under src/) with its two
substitution slots; only the substitution contract matters (§6). -/
def HEARING_SYSTEM_PROMPT_format (hearing_policy : String) (hearing_items : String) : String :=
  "あなたはブログ記事のためのヒアリング担当です。\n方針:\n" ++ hearing_policy
    ++ "\nヒアリング項目:\n" ++ hearing_items

/-- Modelled from the spec: the fixed summarization prompt template
(postblog/templates/prompts.py, not under src/) with its transcript
slot. -/
def HEARING_SUMMARY_PROMPT_format (conversation : String) : String :=
  "以下のヒアリング会話を要約し、JSONで出力してください。\n会話:\n" ++ conversation

/-- `HearingService.start_hearing`: a fresh state tagged with the
template's identifier. -/
def start_hearing (blog_type : BlogType) : HearingResult :=
  { blog_type_id := blog_type.id }

/-- Append one turn to the state (`hearing_result.messages.append(...)`). -/
def appendMsg (hr : HearingResult) (r : Role) (c : String) : HearingResult :=
  { hr with messages := hr.messages ++ [{ role := r, content := c }] }

/-- The checklist rendering of `send_message`: one line per item,
`- question（必須/任意）`. -/
def hearingItemsText (items : List HearingItem) : String :=
  String.intercalate "\n"
    (items.map (fun item =>
      "- " ++ item.question ++ "（" ++ (if item.required then "必須" else "任意") ++ "）"))

/-- The message sequence `send_message` hands to `self._llm.chat`: the
system prompt built from the template, then every turn of the state
after the user turn was appended. -/
def sendChatInput (hr : HearingResult) (user_message : String) (bt : BlogType) : List ChatMessage :=
  { role := "system",
    content := HEARING_SYSTEM_PROMPT_format bt.hearing_policy (hearingItemsText bt.hearing_items) }
    :: ((appendMsg hr Role.user user_message).messages.map
      (fun m => { role := roleStr m.role, content := m.content }))

/-- `HearingService.send_message`.  The LLM client is an opaque
capability `chat` taking the payload and an optional sampling
temperature and either returning response text or failing with a
backend-defined error `ε`; `send_message` passes no temperature.  The
user turn is appended before the call, so on backend failure the error
propagates (`Except.error`) with the user turn already in the history;
on success the assistant turn is appended and the raw text returned. -/
def send_message {ε : Type} (hr : HearingResult) (user_message : String) (bt : BlogType)
    (chat : List ChatMessage → Option ℚ → Except ε String) :
    HearingResult × Except ε String :=
  match chat (sendChatInput hr user_message bt) none with
  | Except.error e => (appendMsg hr Role.user user_message, Except.error e)
  | Except.ok response =>
    (appendMsg (appendMsg hr Role.user user_message) Role.assistant response,
      Except.ok response)

/-- Python exceptions that can escape or be caught inside
`generate_summary`'s try block besides extraction failure. -/
inductive PyError where
  | valueError : PyError
  | typeError : PyError
  | attributeError : PyError

/-- Python `dict.get(key, default)` on the modelled dict. -/
def objLookup : List (String × JValue) → String → Option JValue
  | [], _ => none
  | p :: rest, k => if p.1 = k then some p.2 else objLookup rest k

/-- `data.get(key, default)` as used by `generate_summary`. -/
def jGet (kvs : List (String × JValue)) (k : String) (dflt : JValue) : JValue :=
  (objLookup kvs k).getD dflt

/-- One element of a key/value sequence consumed by `dict.update` when
its argument is not a dict: a 2-character string yields its two
characters as key and value, a 2-list with a string head yields that
pair, a 2-dict unpacks to its two keys; wrong lengths raise
`ValueError`, non-sequences raise `TypeError`.  CPython also accepts a
2-list whose head is a number, bool or None (hashable non-string keys);
the spec's answers mapping is string-keyed (§3), so that corner is
modelled as `TypeError` -- no claim reaches it. -/
def pairOfElem : JValue → Except PyError (String × JValue)
  | JValue.str s =>
    match s.toList with
    | [c1, c2] => Except.ok (String.mk [c1], JValue.str (String.mk [c2]))
    | _ => Except.error PyError.valueError
  | JValue.arr [JValue.str k, v] => Except.ok (k, v)
  | JValue.arr [JValue.arr _, _] => Except.error PyError.typeError
  | JValue.arr [JValue.obj _, _] => Except.error PyError.typeError
  | JValue.arr l =>
    if l.length = 2 then Except.error PyError.typeError
    else Except.error PyError.valueError
  | JValue.obj [(k1, _), (k2, _)] => Except.ok (k1, JValue.str k2)
  | JValue.obj _ => Except.error PyError.valueError
  | _ => Except.error PyError.typeError

/-- `dict.update` fed a sequence of key/value elements: elements are
merged one by one, so on a bad element the earlier ones are already in
the dict (CPython mutates incrementally). -/
def updateFromPairs (d : List (String × JValue)) :
    List JValue → List (String × JValue) × Option PyError
  | [] => (d, none)
  | e :: rest =>
    match pairOfElem e with
    | Except.ok (k, v) => updateFromPairs (dictInsert d k v) rest
    | Except.error err => (d, some err)

/-- Python `dict.update(x)` for the values `x` can take here: a dict
merges with new values winning; a non-empty string's first element is a
length-1 string, raising `ValueError`; an empty string or list is a
no-op; a list is consumed elementwise; None, numbers and bools are not
iterable, raising `TypeError`. -/
def dictUpdate (d : List (String × JValue)) : JValue → List (String × JValue) × Option PyError
  | JValue.obj kvs => (kvs.foldl (fun acc kv => dictInsert acc kv.1 kv.2) d, none)
  | JValue.arr elems => updateFromPairs d elems
  | JValue.str s => if s.isEmpty then (d, none) else (d, some PyError.valueError)
  | _ => (d, some PyError.typeError)

/-- The flat transcript rendered by `generate_summary`:
`role: content`, one line per turn, in order. -/
def renderConversation (msgs : List HearingMessage) : String :=
  String.intercalate "\n" (msgs.map (fun m => roleStr m.role ++ ": " ++ m.content))

/-- The single prompt message `generate_summary` sends to the LLM. -/
def summaryChatInput (hr : HearingResult) : List ChatMessage :=
  [{ role := "user", content := HEARING_SUMMARY_PROMPT_format (renderConversation hr.messages) }]

/-- The sampling temperature `generate_summary` requests. -/
def summaryTemperature : ℚ := 3 / 10

/-- What can escape `generate_summary`: a backend failure from the LLM
client, or an uncaught Python exception from the extraction block. -/
inductive SummaryError (ε : Type) where
  | backend : ε → SummaryError ε
  | py : PyError → SummaryError ε

/-- The try/except block of `generate_summary` applied to the raw
backend response, returning the mutated state and an escaping exception
if any.  Faithful to the Python control flow: `_extract_json` raising
`ValueError` is caught (summary becomes the verbatim response and no
other field changes); on a parsed non-dict, `data.get` raises an
uncaught `AttributeError` before any assignment; on a dict, `summary` is
assigned first, then `answers.update(...)` runs -- if it raises
`ValueError` the except arm overwrites `summary` with the raw response
and the SEO assignments are skipped, if it raises `TypeError` that
propagates (so `completed` is never set), otherwise the three SEO fields
are assigned.  `completed` is set exactly when no exception escapes. -/
def generate_summary_step (hr : HearingResult) (response : String) :
    HearingResult × Option PyError :=
  match extract_json response with
  | none =>
    ({ hr with summary := JValue.str response, completed := true }, none)
  | some (JValue.obj kvs) =>
    match dictUpdate hr.answers (jGet kvs "answers" (JValue.obj [])) with
    | (ans2, some PyError.valueError) =>
      ({ hr with summary := JValue.str response, answers := ans2, completed := true }, none)
    | (ans2, some e) =>
      ({ hr with summary := jGet kvs "summary" (JValue.str ""), answers := ans2 }, some e)
    | (ans2, none) =>
      ({ hr with
          summary := jGet kvs "summary" (JValue.str ""),
          answers := ans2,
          seo_keywords := jGet kvs "seo_keywords" (JValue.str ""),
          seo_target_audience := jGet kvs "seo_target_audience" (JValue.str ""),
          seo_search_intent := jGet kvs "seo_search_intent" (JValue.str ""),
          completed := true }, none)
  | some _ => (hr, some PyError.attributeError)

/-- `HearingService.generate_summary`: render the transcript, call the
LLM at low temperature, then run the extraction block.  A backend
failure propagates untouched; otherwise the state after the try/except
block is returned together with any escaping Python exception. -/
def generate_summary {ε : Type} (hr : HearingResult)
    (chat : List ChatMessage → Option ℚ → Except ε String) :
    HearingResult × Option (SummaryError ε) :=
  match chat (summaryChatInput hr) (some summaryTemperature) with
  | Except.error e => (hr, some (SummaryError.backend e))
  | Except.ok response =>
    match generate_summary_step hr response with
    | (hr2, none) => (hr2, none)
    | (hr2, some pe) => (hr2, some (SummaryError.py pe))

/-- First-success-wins choice between two optional results. -/
def optOr {α : Type} : Option α → Option α → Option α
  | some v, _ => some v
  | none, b => b

/-- Stage 1 as the amended claim words it: the first (leftmost) fenced
code block, optionally tagged with the literal `json`, its stripped
inner content parsed. -/
def stage1Amended (t : String) : Option JValue :=
  match codeBlockContent t.toList with
  | some c => json_loads_list (pyStrip c)
  | none => none

/-- Stage 2 as the claim words it: parse the entire trimmed text. -/
def stage2Whole (t : String) : Option JValue :=
  json_loads_list (pyStrip t.toList)

/-- Stage 3 as the claim words it: parse the span from the first opening
brace to the last closing brace (greedy, not balanced). -/
def stage3Brace (t : String) : Option JValue :=
  match braceSpan t.toList with
  | some span => json_loads_list span
  | none => none

/-- The amended claim C1's algorithm: the three stages in order,
first success wins, failure of all three is `ExtractionError`. -/
def extractAmended (t : String) : Option JValue :=
  optOr (stage1Amended t) (optOr (stage2Whole t) (stage3Brace t))

/-- Stage 1 as claim C1 literally words it, where the opening fence may
carry ANY language tag: the tag (a run of letters after the fence) is
skipped before the inner content is taken.  This is the claim's reading,
not the code's: the code's regex only skips the literal `json`. -/
def langTaggedBlockInner (cs : List Char) : Option (List Char) :=
  match dropToFence cs with
  | none => none
  | some s =>
    scanContent (((s.drop 3).dropWhile Char.isAlpha).dropWhile isPySpace)

/-- The `answers` sub-mapping of an extracted mapping as claim C5 reads
it: the empty mapping when the key is absent, the sub-mapping when the
value is a mapping, undefined otherwise. -/
def extractedAnswers (kvs : List (String × JValue)) : Option (List (String × JValue)) :=
  match objLookup kvs "answers" with
  | none => some []
  | some (JValue.obj l) => some l
  | some _ => none

/-- A concrete hearing template, used as input by the witnesses (mirrors
the TECH_BLOG fixture of the unit tests). -/
def sampleBlogType : BlogType :=
  { id := "tech",
    hearing_policy := "技術記事のための方針",
    hearing_items := [{ question := "テーマは何ですか", required := true },
                      { question := "対象読者は誰ですか", required := false }] }

/-- A concrete LLM capability that replies with fixed text, used as
input by the witnesses of the send-turn claims. -/
def chatFixed (resp : String) : List ChatMessage → Option ℚ → Except Unit String :=
  fun _ _ => Except.ok resp

/-- A concrete LLM capability that fails, used as input by the witness
of the backend-failure claim. -/
def chatFailing : List ChatMessage → Option ℚ → Except String String :=
  fun _ _ => Except.error "boom"

/-- A concrete in-progress state with one existing answer and a
non-empty SEO field, used as input by the summarization claims. -/
def sampleState : HearingResult :=
  { blog_type_id := "tech",
    messages := [{ role := Role.user, content := "Pythonについて" },
                 { role := Role.assistant, content := "了解しました" }],
    answers := [("old", JValue.str "v")],
    seo_keywords := JValue.str "X" }

/-- The valid summary response used by the witness of claim C5 (shape of
the unit tests' fixtures, with two keys left out). -/
def sampleSummaryResp : String :=
  "\x7b\"summary\": \"S\", \"answers\": \x7b\"topic\": \"T\"\x7d, \"seo_keywords\": \"K\"\x7d"

/-- The extracted mapping of `sampleSummaryResp`. -/
def sampleSummaryKvs : List (String × JValue) :=
  [("summary", JValue.str "S"),
   ("answers", JValue.obj [("topic", JValue.str "T")]),
   ("seo_keywords", JValue.str "K")]

theorem objLookup_dictInsert_self (d : List (String × JValue)) (k : String) (v : JValue) :
    objLookup (dictInsert d k v) k = some v := by
  induction d with
  | nil => simp [dictInsert, objLookup]
  | cons p rest ih =>
    by_cases h : p.1 = k
    · simp [dictInsert, h, objLookup]
    · simp [dictInsert, h, objLookup, ih]

theorem objLookup_dictInsert_ne (d : List (String × JValue)) (k : String) (v : JValue)
    (k' : String) (h : k' ≠ k) :
    objLookup (dictInsert d k v) k' = objLookup d k' := by
  induction d with
  | nil => simp [dictInsert, objLookup, Ne.symm h]
  | cons p rest ih =>
    by_cases hp : p.1 = k
    · subst hp
      simp [dictInsert, objLookup, Ne.symm h]
    · simp [dictInsert, hp, objLookup, ih]

theorem objLookup_eq_none_of_not_mem (d : List (String × JValue)) (k : String)
    (h : k ∉ d.map Prod.fst) :
    objLookup d k = none := by
  induction d with
  | nil => rfl
  | cons p rest ih =>
    rw [List.map_cons, List.mem_cons] at h
    push_neg at h
    have hne : ¬(p.1 = k) := fun hh => h.1 hh.symm
    simp [objLookup, hne, ih h.2]

theorem objLookup_foldl_dictInsert (m : List (String × JValue)) :
    ∀ (d : List (String × JValue)) (k : String),
      (m.map Prod.fst).Nodup →
      objLookup (m.foldl (fun acc kv => dictInsert acc kv.1 kv.2) d) k
        = optOr (objLookup m k) (objLookup d k) := by
  induction m with
  | nil =>
    intro d k _
    simp [objLookup, optOr]
  | cons kv rest ih =>
    intro d k hnd
    rw [List.map_cons, List.nodup_cons] at hnd
    rw [List.foldl_cons, ih (dictInsert d kv.1 kv.2) k hnd.2]
    by_cases hk : kv.1 = k
    · subst hk
      rw [objLookup_eq_none_of_not_mem rest kv.1 hnd.1,
          objLookup_dictInsert_self d kv.1 kv.2]
      simp [objLookup, optOr]
    · rw [objLookup_dictInsert_ne d kv.1 kv.2 k (Ne.symm hk)]
      simp [objLookup, hk, optOr]

/-- Claim C8: there is an input on which extract succeeds but returns a
value that is not a mapping -- the whole-text input consisting of the
JSON array [1, 2] is returned as an array, despite the declared
`dict[str, str]` contract of `_extract_json`. -/
theorem extract_nonmapping_value :
    extract_json "[1, 2]" = some (JValue.arr [JValue.num "1", JValue.num "2"])
      ∧ Option.map JValue.isObj (extract_json "[1, 2]") = some false :=
  ⟨rfl, rfl⟩

/-- Claim C1, counterexample to the wording "optionally tagged with a
language": on a fenced block tagged `python` whose inner content (after
the tag, as the claim reads it) is valid JSON, the claim's stage 1 would
succeed, yet the code leaves the tag inside the content, all three real
stages fail, and extract raises. -/
theorem extract_langtag_counterexample :
    langTaggedBlockInner ("```python\n\x7b\"a\": 1\x7d\n``` x\x7d".toList)
        = some ("\x7b\"a\": 1\x7d".toList)
      ∧ json_loads_list (pyStrip ("\x7b\"a\": 1\x7d".toList))
          = some (JValue.obj [("a", JValue.num "1")])
      ∧ extract_json "```python\n\x7b\"a\": 1\x7d\n``` x\x7d" = none :=
  ⟨rfl, rfl, rfl⟩

/-- Claim C1 (amended: the optional fence tag is the literal `json`, any
other language tag stays inside the content stage 1 tries to parse): for
every input text, extract is the fixed three-stage chain with first
success winning -- first fenced block's stripped content, then the whole
trimmed text, then the first-brace-to-last-brace span -- and fails only
when all three stages fail. -/
theorem extract_stage_order (t : String) : extract_json t = extractAmended t := by
  unfold extract_json extractAmended stage1Amended stage2Whole stage3Brace extractStage23
  cases hc : codeBlockContent t.toList with
  | none =>
    cases h2 : json_loads_list (pyStrip t.toList) with
    | some v => simp [h2, optOr]
    | none =>
      cases hb : braceSpan t.toList with
      | none => simp [h2, hb, optOr]
      | some span => simp [h2, hb, optOr]
  | some c =>
    cases h1 : json_loads_list (pyStrip c) with
    | some v => simp [h1, optOr]
    | none =>
      cases h2 : json_loads_list (pyStrip t.toList) with
      | some v => simp [h1, h2, optOr]
      | none =>
        cases hb : braceSpan t.toList with
        | none => simp [h1, h2, hb, optOr]
        | some span => simp [h1, h2, hb, optOr]

/-- Claim C4, counterexample: this text contains an invalid fenced code
block (content `x`) and a valid brace span elsewhere, yet extract does
not return that span's mapping -- the whole trimmed text happens to be a
valid JSON array, so stage 2 intercepts and the array is returned. -/
theorem extract_fallback_counterexample :
    codeBlockContent ("[\"```x``` \", \x7b\"b\": 2\x7d]".toList) = some ['x']
      ∧ json_loads_list (pyStrip ['x']) = none
      ∧ braceSpan ("[\"```x``` \", \x7b\"b\": 2\x7d]".toList)
          = some ("\x7b\"b\": 2\x7d".toList)
      ∧ json_loads_list ("\x7b\"b\": 2\x7d".toList)
          = some (JValue.obj [("b", JValue.num "2")])
      ∧ extract_json "[\"```x``` \", \x7b\"b\": 2\x7d]"
          = some (JValue.arr [JValue.str "```x``` ", JValue.obj [("b", JValue.num "2")]])
      ∧ Option.map JValue.isObj (extract_json "[\"```x``` \", \x7b\"b\": 2\x7d]")
          = some false :=
  ⟨rfl, rfl, rfl, rfl, rfl, rfl⟩

/-- Claim C4 (amended: additionally the entire trimmed text must not
itself parse, and the recovered span is the stage-3 span from the first
opening brace to the last closing brace): stage 1's failure is not
fatal; the fallback chain recovers the valid span's parsed value. -/
theorem extract_fallback_recovers (t : String) (c span : List Char) (v : JValue)
    (h1 : codeBlockContent t.toList = some c)
    (h2 : json_loads_list (pyStrip c) = none)
    (h3 : json_loads_list (pyStrip t.toList) = none)
    (h4 : braceSpan t.toList = some span)
    (h5 : json_loads_list span = some v) :
    extract_json t = some v := by
  unfold extract_json extractStage23
  simp only [h1, h2, h3, h4, h5]

theorem extract_fallback_recovers_witness :
    extract_json "```json\nbad\n```\n\x7b\"k\": \"v\"\x7d"
      = some (JValue.obj [("k", JValue.str "v")]) :=
  extract_fallback_recovers "```json\nbad\n```\n\x7b\"k\": \"v\"\x7d"
    ("bad".toList) ("\x7b\"k\": \"v\"\x7d".toList)
    (JValue.obj [("k", JValue.str "v")]) rfl rfl rfl rfl rfl

/-- Claim C3: a successful sendTurn appends exactly a user turn carrying
the given text and then an assistant turn carrying the raw backend
reply, in that order, leaves every prior turn unchanged in its position,
grows the turn list by exactly 2, and returns the raw assistant text. -/
theorem send_message_appends_two (ε : Type) (hr : HearingResult) (m : String) (bt : BlogType)
    (chat : List ChatMessage → Option ℚ → Except ε String) (resp : String)
    (h : chat (sendChatInput hr m bt) none = Except.ok resp) :
    (send_message hr m bt chat).1.messages
        = hr.messages ++ [{ role := Role.user, content := m },
                          { role := Role.assistant, content := resp }]
      ∧ (send_message hr m bt chat).1.messages.length = hr.messages.length + 2
      ∧ (send_message hr m bt chat).2 = Except.ok resp := by
  unfold send_message
  rw [h]
  refine ⟨?_, ?_, rfl⟩
  · simp [appendMsg]
  · simp [appendMsg]

theorem send_message_appends_two_witness :
    (send_message (start_hearing sampleBlogType) "こんにちは" sampleBlogType
      (chatFixed "応答")).1.messages.length = 2 := by
  have h := send_message_appends_two Unit (start_hearing sampleBlogType) "こんにちは"
    sampleBlogType (chatFixed "応答") "応答" rfl
  simpa [start_hearing] using h.2.1

/-- Claim C7: when the backend call inside sendTurn fails, the error is
propagated unchanged and the state is changed only by the user turn
appended before the call -- no assistant turn, no other field. -/
theorem send_message_backend_failure (ε : Type) (hr : HearingResult) (m : String) (bt : BlogType)
    (chat : List ChatMessage → Option ℚ → Except ε String) (e : ε)
    (h : chat (sendChatInput hr m bt) none = Except.error e) :
    (send_message hr m bt chat).1
        = { hr with messages := hr.messages ++ [{ role := Role.user, content := m }] }
      ∧ (send_message hr m bt chat).2 = Except.error e := by
  unfold send_message
  rw [h]
  exact ⟨rfl, rfl⟩

theorem send_message_backend_failure_witness :
    (send_message (start_hearing sampleBlogType) "hi" sampleBlogType chatFailing).2
      = Except.error "boom" := by
  have h := send_message_backend_failure String (start_hearing sampleBlogType) "hi"
    sampleBlogType chatFailing "boom" rfl
  exact h.2

/-- Claim C9: a successful sendTurn modifies only the turn list -- the
template id, summary, answers, the three SEO fields and the completion
flag keep exactly their prior values. -/
theorem send_message_frame (ε : Type) (hr : HearingResult) (m : String) (bt : BlogType)
    (chat : List ChatMessage → Option ℚ → Except ε String) (resp : String)
    (h : chat (sendChatInput hr m bt) none = Except.ok resp) :
    (send_message hr m bt chat).1.blog_type_id = hr.blog_type_id
      ∧ (send_message hr m bt chat).1.summary = hr.summary
      ∧ (send_message hr m bt chat).1.answers = hr.answers
      ∧ (send_message hr m bt chat).1.seo_keywords = hr.seo_keywords
      ∧ (send_message hr m bt chat).1.seo_target_audience = hr.seo_target_audience
      ∧ (send_message hr m bt chat).1.seo_search_intent = hr.seo_search_intent
      ∧ (send_message hr m bt chat).1.completed = hr.completed := by
  unfold send_message
  rw [h]
  exact ⟨rfl, rfl, rfl, rfl, rfl, rfl, rfl⟩

theorem send_message_frame_witness :
    (send_message sampleState "続き" sampleBlogType (chatFixed "res")).1.seo_keywords
      = JValue.str "X" := by
  have h := send_message_frame Unit sampleState "続き" sampleBlogType (chatFixed "res") "res" rfl
  exact h.2.2.2.1.trans rfl

/-- Claim C2, behavior at the failing input: when the backend returns
the text `[1, 2]`, extraction succeeds with a list, `data.get` raises an
uncaught `AttributeError`, `generate_summary` propagates it and
`completed` is never set -- contradicting the guarantee that summarize
never fails on malformed output and always completes. -/
theorem generate_summary_nonmapping_raises :
    generate_summary (start_hearing sampleBlogType)
        (fun _ _ => (Except.ok "[1, 2]" : Except Unit String))
      = (start_hearing sampleBlogType, some (SummaryError.py PyError.attributeError))
    ∧ (generate_summary (start_hearing sampleBlogType)
        (fun _ _ => (Except.ok "[1, 2]" : Except Unit String))).1.completed = false :=
  ⟨rfl, rfl⟩

/-- Claim C6: when extraction fails on the backend response, summarize
stores the raw response verbatim as the summary, leaves the answers and
all three SEO fields unchanged, sets completed, and raises nothing. -/
theorem summary_extraction_failure_fallback (ε : Type) (hr : HearingResult)
    (chat : List ChatMessage → Option ℚ → Except ε String) (resp : String)
    (hok : chat (summaryChatInput hr) (some summaryTemperature) = Except.ok resp)
    (hfail : extract_json resp = none) :
    (generate_summary hr chat).1.summary = JValue.str resp
      ∧ (generate_summary hr chat).1.answers = hr.answers
      ∧ (generate_summary hr chat).1.seo_keywords = hr.seo_keywords
      ∧ (generate_summary hr chat).1.seo_target_audience = hr.seo_target_audience
      ∧ (generate_summary hr chat).1.seo_search_intent = hr.seo_search_intent
      ∧ (generate_summary hr chat).1.completed = true
      ∧ (generate_summary hr chat).2 = none := by
  unfold generate_summary generate_summary_step
  rw [hok]
  simp [hfail]

theorem summary_extraction_failure_fallback_witness :
    (generate_summary sampleState (chatFixed "これはJSONではありません")).1.summary
        = JValue.str "これはJSONではありません"
      ∧ (generate_summary sampleState (chatFixed "これはJSONではありません")).1.answers
        = sampleState.answers
      ∧ (generate_summary sampleState (chatFixed "これはJSONではありません")).1.completed
        = true := by
  have h := summary_extraction_failure_fallback Unit sampleState
    (chatFixed "これはJSONではありません") "これはJSONではありません" rfl rfl
  exact ⟨h.1, h.2.1, h.2.2.2.2.2.1⟩

/-- Claim C10: summarize never touches the turn history or the template
id, whatever the backend returns and whichever extraction path runs --
only summary, answers, the SEO fields and completed can change. -/
theorem generate_summary_frame (ε : Type) (hr : HearingResult)
    (chat : List ChatMessage → Option ℚ → Except ε String) :
    (generate_summary hr chat).1.messages = hr.messages
      ∧ (generate_summary hr chat).1.blog_type_id = hr.blog_type_id := by
  have hstep : ∀ resp : String,
      (generate_summary_step hr resp).1.messages = hr.messages
        ∧ (generate_summary_step hr resp).1.blog_type_id = hr.blog_type_id := by
    intro resp
    unfold generate_summary_step
    cases hex : extract_json resp with
    | none => exact ⟨rfl, rfl⟩
    | some data =>
      cases data with
      | null => exact ⟨rfl, rfl⟩
      | bool b => exact ⟨rfl, rfl⟩
      | num s => exact ⟨rfl, rfl⟩
      | str s => exact ⟨rfl, rfl⟩
      | arr l => exact ⟨rfl, rfl⟩
      | obj kvs =>
        rcases hdu : dictUpdate hr.answers (jGet kvs "answers" (JValue.obj [])) with ⟨ans2, err⟩
        cases err with
        | none => simp [hdu]
        | some e =>
          cases e with
          | valueError => simp [hdu]
          | typeError => simp [hdu]
          | attributeError => simp [hdu]
  unfold generate_summary
  cases hc : chat (summaryChatInput hr) (some summaryTemperature) with
  | error e => exact ⟨rfl, rfl⟩
  | ok resp =>
    have h := hstep resp
    rcases hres : generate_summary_step hr resp with ⟨hr2, perr⟩
    rw [hres] at h
    cases perr with
    | none => simpa [hres] using h
    | some pe => simpa [hres] using h

/-- Claim C5, counterexample: on the response consisting of the mapping
with the single pair answers: "no", extraction succeeds with a mapping
whose `summary` and SEO keys are absent, so the claim predicts empty
text for `summary` and `seo_keywords`; instead `answers.update("no")`
raises `ValueError`, the except arm overwrites `summary` with the whole
raw response, and the SEO fields keep their prior values. -/
theorem summary_fields_counterexample :
    extract_json "\x7b\"answers\": \"no\"\x7d"
        = some (JValue.obj [("answers", JValue.str "no")])
      ∧ (generate_summary sampleState
          (fun _ _ => (Except.ok "\x7b\"answers\": \"no\"\x7d" : Except Unit String))).1.summary
        = JValue.str "\x7b\"answers\": \"no\"\x7d"
      ∧ (generate_summary sampleState
          (fun _ _ => (Except.ok "\x7b\"answers\": \"no\"\x7d" : Except Unit String))).1.seo_keywords
        = JValue.str "X"
      ∧ (generate_summary sampleState
          (fun _ _ => (Except.ok "\x7b\"answers\": \"no\"\x7d" : Except Unit String))).2
        = none
      ∧ ¬(JValue.str "\x7b\"answers\": \"no\"\x7d" = JValue.str "")
      ∧ ¬(JValue.str "X" = JValue.str "") := by
  refine ⟨rfl, rfl, rfl, rfl, ?_, ?_⟩
  · intro hh
    injection hh with h2
    exact absurd h2 (by decide)
  · intro hh
    injection hh with h2
    exact absurd h2 (by decide)

/-- Claim C5 (amended: restricted to extracted mappings whose `answers`
entry, when present, is itself a sub-mapping with distinct keys): after
a summarize whose extraction succeeds, each of summary and the three
SEO fields equals the extracted value, or empty text when its key is
absent (never the previous value), and the answers mapping is the union
of the prior entries and the extracted sub-mapping with newly extracted
values winning on key collision. -/
theorem summary_extraction_success_fields (ε : Type) (hr : HearingResult)
    (chat : List ChatMessage → Option ℚ → Except ε String) (resp : String)
    (kvs m : List (String × JValue))
    (hok : chat (summaryChatInput hr) (some summaryTemperature) = Except.ok resp)
    (hex : extract_json resp = some (JValue.obj kvs))
    (hans : extractedAnswers kvs = some m)
    (hnd : (m.map Prod.fst).Nodup) :
    (generate_summary hr chat).1.summary = (objLookup kvs "summary").getD (JValue.str "")
      ∧ (generate_summary hr chat).1.seo_keywords
          = (objLookup kvs "seo_keywords").getD (JValue.str "")
      ∧ (generate_summary hr chat).1.seo_target_audience
          = (objLookup kvs "seo_target_audience").getD (JValue.str "")
      ∧ (generate_summary hr chat).1.seo_search_intent
          = (objLookup kvs "seo_search_intent").getD (JValue.str "")
      ∧ (∀ k, objLookup (generate_summary hr chat).1.answers k
            = optOr (objLookup m k) (objLookup hr.answers k))
      ∧ (generate_summary hr chat).1.completed = true
      ∧ (generate_summary hr chat).2 = none := by
  have hj : jGet kvs "answers" (JValue.obj []) = JValue.obj m := by
    unfold extractedAnswers at hans
    unfold jGet
    cases ho : objLookup kvs "answers" with
    | none =>
      rw [ho] at hans
      injection hans with hm
      subst hm
      rfl
    | some v =>
      rw [ho] at hans
      cases v with
      | obj l =>
        injection hans with hm
        subst hm
        rfl
      | null => exact Option.noConfusion hans
      | bool b => exact Option.noConfusion hans
      | num s => exact Option.noConfusion hans
      | str s => exact Option.noConfusion hans
      | arr l => exact Option.noConfusion hans
  unfold generate_summary generate_summary_step
  rw [hok]
  simp only [hex]
  rw [hj]
  simp only [dictUpdate]
  refine ⟨?_, ?_, ?_, ?_, ?_, ?_, ?_⟩
  all_goals try trivial
  intro k
  exact objLookup_foldl_dictInsert m hr.answers k hnd

theorem summary_extraction_success_fields_witness :
    objLookup (generate_summary sampleState (chatFixed sampleSummaryResp)).1.answers "topic"
        = some (JValue.str "T")
      ∧ objLookup (generate_summary sampleState (chatFixed sampleSummaryResp)).1.answers "old"
        = some (JValue.str "v")
      ∧ (generate_summary sampleState (chatFixed sampleSummaryResp)).1.summary = JValue.str "S"
      ∧ (generate_summary sampleState (chatFixed sampleSummaryResp)).1.seo_target_audience
        = JValue.str "" := by
  have h := summary_extraction_success_fields Unit sampleState (chatFixed sampleSummaryResp)
    sampleSummaryResp sampleSummaryKvs [("topic", JValue.str "T")] rfl rfl rfl (by decide)
  refine ⟨?_, ?_, ?_, ?_⟩
  · exact (h.2.2.2.2.1 "topic").trans rfl
  · exact (h.2.2.2.2.1 "old").trans rfl
  · exact h.1.trans rfl
  · exact h.2.2.1.trans rfl
